import Mathlib

/-!
Shallow embedding of the replication- and shard-aware connection pool manager:
`packages/core/src/abstract-dialect/replication-pool.ts`,
`packages/core/src/dialects/abstract/replication-pool.ts`,
`packages/core/src/dialects/abstract/sharded-replication-pool.ts` and the sharded
variant in `unnamed/part_000` (identical to the second half of the sharded file).

Connections are identified by `Nat` ids.  JS `Map`s are embedded as association
lists, the module-level `owningPools` WeakMap is passed explicitly, asynchronous
adapter calls are embedded as explicit outcomes, and thrown errors are `Except`
values paired with the post state of the mutated pool objects.
-/

/-- Embeds `ConnectionType` from base-replication-pool.ts: the role of a connection. -/
inductive ConnectionType where
  | read
  | write

deriving DecidableEq, Repr

/-- Embeds the errors thrown by the pool operations: the sequelize-pool acquisition
timeout, its re-wrapping into the caller-supplied `timeoutErrorClass` (identified here by
a class name, with the original message kept as the cause), a rejection coming out of a
`beforeAcquire`/`afterAcquire` hook, the unrecognized-connection error of `release`/`destroy`,
and the sharded pool's missing-pool error of `acquire`. -/
inductive PoolError where
  | timeout (msg : String)
  | wrappedTimeout (cls : String) (causeMsg : String)
  | hookError (msg : String)
  | unrecognizedConnection (msg : String)
  | noPool (poolType : ConnectionType) (shardId : String)

deriving DecidableEq, Repr

/-- Modelled from the spec: the `sequelize-pool` `Pool` primitive (the SubPool of spec §4.1)
is an external npm dependency whose source is not part of this repository; only what the
claims rest on is modelled.  `idle` are the connections available for reuse, `inUse` the
checked-out ones, `nextId` feeds creation of fresh connection ids, `max` bounds the total,
and `waitingCount` is the number of queued acquire calls.  Validation, idle reaping and
`maxUses` retirement are exercised by no claim and are not modelled. -/
structure Pool where
  idle : List Nat
  inUse : List Nat
  nextId : Nat
  max : Nat
  waitingCount : Nat

deriving DecidableEq, Repr

/-- Embeds the sequelize-pool `size` counter: total tracked connections (spec §4.1). -/
def Pool.size (p : Pool) : Nat := p.idle.length + p.inUse.length

/-- Embeds the sequelize-pool `available` counter: idle connections. -/
def Pool.available (p : Pool) : Nat := p.idle.length

/-- Embeds the sequelize-pool `using` counter: checked-out connections. -/
def Pool.usingCount (p : Pool) : Nat := p.inUse.length

/-- Embeds the sequelize-pool `waiting` counter: queued acquire calls. -/
def Pool.waiting (p : Pool) : Nat := p.waitingCount

/-- Modelled from the spec (§4.1 `acquire`): hand out an idle connection when one exists,
otherwise create a fresh one while under `max`, otherwise fail with the timeout error that
sequelize-pool raises (`TimeoutError`). -/
def Pool.acquireConn (p : Pool) : Except PoolError (Nat × Pool) :=
  match p.idle with
  | c :: rest => Except.ok (c, { p with idle := rest, inUse := c :: p.inUse })
  | [] =>
    if p.size < p.max then
      Except.ok (p.nextId, { p with inUse := p.nextId :: p.inUse, nextId := p.nextId + 1 })
    else
      Except.error (PoolError.timeout "ResourceRequest timed out")

/-- Modelled from the spec (§4.1 `release`): return a checked-out connection to the idle set. -/
def Pool.releaseConn (p : Pool) (connection : Nat) : Pool :=
  { p with inUse := p.inUse.erase connection, idle := connection :: p.idle }

/-- Modelled from the spec (§4.1 `destroy`): remove the connection from the accounting
regardless of checked-out/idle state. -/
def Pool.destroyConn (p : Pool) (connection : Nat) : Pool :=
  { p with inUse := p.inUse.erase connection, idle := p.idle.erase connection }

/-- Embeds `AcquireConnectionOptions` from base-replication-pool.ts; the defaults mirror the
destructuring `const { useMaster = false, type = 'write' } = options` in
`ReplicationPool.acquire` (abstract-dialect/replication-pool.ts line 122). -/
structure AcquireConnectionOptions where
  type : ConnectionType := ConnectionType.write
  useMaster : Bool := false

deriving DecidableEq, Repr

/-- Embeds `ReplicationPool` (abstract-dialect/replication-pool.ts lines 31-61): one write
`Pool`, an optional read `Pool` (null when `readConfig` is empty or absent, constructor lines
63-65), the optional caller-supplied `timeoutErrorClass` (identified by name) and the optional
`beforeAcquire`/`afterAcquire` hooks, embedded as functions returning `Except` (a rejection is
an `error`). -/
structure ReplicationPool where
  read : Option Pool
  write : Pool
  timeoutErrorClass : Option String := none
  beforeAcquire : Option (AcquireConnectionOptions → Except String Unit) := none
  afterAcquire : Option (Nat → AcquireConnectionOptions → Except String Unit) := none

/-- Embeds the pool-selection condition of `ReplicationPool.acquire` line 128:
`this.read != null && type === 'read' && !useMaster` (same rule at
dialects/abstract/replication-pool.ts line 105). -/
def ReplicationPool.usesReadPool (p : ReplicationPool)
    (options : AcquireConnectionOptions) : Bool :=
  p.read.isSome && options.type == ConnectionType.read && !options.useMaster

/-- Embeds the result of the ternary of line 128: the read pool when `usesReadPool`, else the
write pool (when `usesReadPool` holds, `read` is `some`, so `getD` returns the read pool). -/
def ReplicationPool.selectedSubPool (p : ReplicationPool)
    (options : AcquireConnectionOptions) : Pool :=
  if p.usesReadPool options then p.read.getD p.write else p.write

/-- Embeds `ReplicationPool.acquire` lines 122-143, the part after the `beforeAcquire` hook:
pool selection (line 128), `pool.acquire()` inside the try/catch that re-wraps a sequelize-pool
`TimeoutError` into `timeoutErrorClass` with the original as `cause` (lines 130-139), then the
awaited `afterAcquire` hook (line 141).  Faithful to the source, there is no try/catch around
`afterAcquire`: when it throws, the already-acquired connection is NOT released back to its
sub-pool, so the returned state keeps it checked out. -/
def ReplicationPool.acquireCore (p : ReplicationPool) (options : AcquireConnectionOptions) :
    Except PoolError Nat × ReplicationPool :=
  match (p.selectedSubPool options).acquireConn with
  | Except.error e =>
    match p.timeoutErrorClass, e with
    | some cls, PoolError.timeout msg => (Except.error (PoolError.wrappedTimeout cls msg), p)
    | _, _ => (Except.error e, p)
  | Except.ok (c, subPool) =>
    let p2 :=
      if p.usesReadPool options then { p with read := some subPool }
      else { p with write := subPool }
    match p.afterAcquire with
    | some hook =>
      match hook c options with
      | Except.error e => (Except.error (PoolError.hookError e), p2)
      | Except.ok _ => (Except.ok c, p2)
    | none => (Except.ok c, p2)

/-- Embeds `ReplicationPool.acquire` (abstract-dialect/replication-pool.ts lines 117-144):
runs the awaited `beforeAcquire` hook first (a rejection aborts before any sub-pool is
touched), then the rest of the body (`acquireCore`).  The options cloning of line 118 is the
identity in a pure embedding, and the queryType validity check of lines 124-126 is subsumed by
`ConnectionType` having exactly the two valid constructors. -/
def ReplicationPool.acquire (p : ReplicationPool) (options : AcquireConnectionOptions) :
    Except PoolError Nat × ReplicationPool :=
  match p.beforeAcquire with
  | some hook =>
    match hook options with
    | Except.error e => (Except.error (PoolError.hookError e), p)
    | Except.ok _ => p.acquireCore options
  | none => p.acquireCore options

/-- Embeds `ReplicationPool.getPool` (lines 175-181): the read pool when `poolType` is
`read` and a read pool exists, the write pool otherwise. -/
def ReplicationPool.getPool (p : ReplicationPool) (poolType : ConnectionType) : Pool :=
  match poolType, p.read with
  | ConnectionType.read, some r => r
  | _, _ => p.write

/-- Embeds `ReplicationPool.release` (lines 146-153).  The module-level `owningPools` WeakMap
is passed explicitly as an association list from connection id to the recorded role; a
connection absent from it makes the call throw before any sub-pool is touched. -/
def ReplicationPool.release (p : ReplicationPool)
    (owningPools : List (Nat × ConnectionType)) (connection : Nat) :
    Except PoolError Unit × ReplicationPool :=
  match owningPools.lookup connection with
  | none =>
    (Except.error (PoolError.unrecognizedConnection
      "Unable to determine to which pool the connection belongs"), p)
  | some connectionType =>
    let subPool := (p.getPool connectionType).releaseConn connection
    match connectionType, p.read with
    | ConnectionType.read, some _ => (Except.ok (), { p with read := some subPool })
    | _, _ => (Except.ok (), { p with write := subPool })

/-- Embeds `ReplicationPool.destroy` (lines 155-163): same lookup-then-route shape as
`release`, delegating to the sub-pool's `destroy`. -/
def ReplicationPool.destroy (p : ReplicationPool)
    (owningPools : List (Nat × ConnectionType)) (connection : Nat) :
    Except PoolError Unit × ReplicationPool :=
  match owningPools.lookup connection with
  | none =>
    (Except.error (PoolError.unrecognizedConnection
      "Unable to determine to which pool the connection belongs"), p)
  | some connectionType =>
    let subPool := (p.getPool connectionType).destroyConn connection
    match connectionType, p.read with
    | ConnectionType.read, some _ => (Except.ok (), { p with read := some subPool })
    | _, _ => (Except.ok (), { p with write := subPool })

/-- Modelled from JS promise semantics: a settled promise is a pair of its settle time and
its outcome (`ok` fulfilment or `error` rejection reason). -/
abbrev SettledPromise := Nat × Except String Unit

/-- Modelled from JS promise semantics: the earliest rejection among a list of settled
promises (ties broken towards the earlier list position), `none` when every one fulfils. -/
def earliestRejection : List SettledPromise → Option (Nat × String)
  | [] => none
  | (t, Except.error e) :: rest =>
    match earliestRejection rest with
    | none => some (t, e)
    | some (t2, e2) => if t2 < t then some (t2, e2) else some (t, e)
  | (_, Except.ok _) :: rest => earliestRejection rest

/-- Modelled from JS promise semantics: the latest settle time of a list of settled promises. -/
def maxSettleTime (ps : List SettledPromise) : Nat :=
  ps.foldr (fun q m => Nat.max q.1 m) 0

/-- Modelled from JS promise semantics: `Promise.all` starts every listed operation, then
rejects at the time of the FIRST rejection with that reason (without waiting for the other
promises to settle, and without cancelling them), or fulfils once all fulfil. -/
def promiseAll (ps : List SettledPromise) : SettledPromise :=
  match earliestRejection ps with
  | some (t, e) => (t, Except.error e)
  | none => (maxSettleTime ps, Except.ok ())

/-- Embeds `ReplicationPool.destroyAllNow` (lines 165-169):
`Promise.all([this.read?.destroyAllNow(), this.write.destroyAllNow()])`.  The adapter-level
result of each sub-pool's operation is supplied as `outcome`; `read?.destroyAllNow()` on a
null read pool is `undefined`, which `Promise.all` treats as already fulfilled. -/
def ReplicationPool.destroyAllNow (p : ReplicationPool)
    (outcome : Pool → SettledPromise) : SettledPromise :=
  promiseAll
    [(match p.read with
      | some r => outcome r
      | none => (0, Except.ok ())),
     outcome p.write]

/-- Embeds the connection handle returned by the sharded pool: the sharded `acquire` annotates
the connection object with the shard id (`connection.shardId = options.shardId`). -/
structure ShardedConnection where
  id : Nat
  shardId : Option String

deriving DecidableEq, Repr

/-- Embeds `ShardedReplicationPool` (part_000 lines 66-77 = sharded-replication-pool.ts second
half lines 366-377): per shard id, an optional read `Pool` (the constructor stores `null` for a
shard whose `readConfig` is empty or absent, part_000 lines 84-87) and a write `Pool`.  The JS
`Map`s are association lists.  The class declares a `timeoutErrorClass` field; faithful to the
source it is never consulted by any method.  The declared-but-never-invoked hook fields are
omitted. -/
structure ShardedReplicationPool where
  read : List (String × Option Pool)
  write : List (String × Pool)
  timeoutErrorClass : Option String := none

/-- Embeds `Map.prototype.set` on an association list whose key is already present: replaces
the value bound to `k` (all write-backs in this embedding target an existing key). -/
def alistSet {α : Type} (m : List (String × α)) (k : String) (v : α) : List (String × α) :=
  match m with
  | [] => []
  | (k2, v2) :: rest => if k2 = k then (k2, v) :: rest else (k2, v2) :: alistSet rest k v

/-- Embeds `ShardedReplicationPool.getPool` (part_000 lines 214-224): for poolType `read` with
`useMaster` falsy it returns `this.read.get(shardId) ?? null` (the read map stores `null` for a
no-replication shard, so the result is `none` both for an unknown shard and for such a shard);
otherwise `this.write.get(shardId) ?? null`.  The `this.read != null` conjunct of the source is
always true (`this.read` is the Map itself). -/
def ShardedReplicationPool.getPool (p : ShardedReplicationPool) (shardId : String)
    (poolType : ConnectionType) (useMaster : Bool) : Option Pool :=
  if poolType == ConnectionType.read && !useMaster then
    (p.read.lookup shardId).getD none
  else
    p.write.lookup shardId

/-- Embeds `ShardedReplicationPool.acquire` (part_000 lines 140-159): resolve the pool via
`getPool`; when it is null throw `No ... pool found for shard ...`; otherwise acquire from it
and annotate the connection with the shard id.  Faithful to the source there is no timeout
re-wrapping here: a sub-pool acquisition error propagates unmodified, and
`timeoutErrorClass` is ignored.  The queryType validity check is subsumed by `ConnectionType`.
The returned state writes the mutated sub-pool back into the map it came from (the same
branching as `getPool`). -/
def ShardedReplicationPool.acquire (p : ShardedReplicationPool) (shardId : String)
    (type : ConnectionType) (useMaster : Bool) :
    Except PoolError ShardedConnection × ShardedReplicationPool :=
  match p.getPool shardId type useMaster with
  | none => (Except.error (PoolError.noPool type shardId), p)
  | some pool =>
    match pool.acquireConn with
    | Except.error e => (Except.error e, p)
    | Except.ok (c, pool2) =>
      let p2 :=
        if type == ConnectionType.read && !useMaster then
          { p with read := alistSet p.read shardId (some pool2) }
        else
          { p with write := alistSet p.write shardId pool2 }
      (Except.ok { id := c, shardId := some shardId }, p2)

/-- Embeds `ShardedReplicationPool.release` (part_000 lines 161-170).  The module-level
`owningPools` WeakMap stores `read:S` / `write:S` values, decoded by `shardValueToTuple`; it is
passed here as an association list from connection id to the decoded (role, shardId) pair.  An
unrecorded connection throws; a recorded one routes through
`this.getPool({shardId, poolType, useMaster: false})?.release(connection)` whose optional
chaining makes the call a silent no-op when the pool is null (shard absent from the map, or a
read-role record on a shard whose read pool is null). -/
def ShardedReplicationPool.release (p : ShardedReplicationPool)
    (owningPools : List (Nat × (ConnectionType × String))) (connection : Nat) :
    Except PoolError Unit × ShardedReplicationPool :=
  match owningPools.lookup connection with
  | none =>
    (Except.error (PoolError.unrecognizedConnection
      "Unable to determine to which sharded pool the connection belongs"), p)
  | some (type, shardId) =>
    match p.getPool shardId type false with
    | none => (Except.ok (), p)
    | some pool =>
      let pool2 := pool.releaseConn connection
      if type == ConnectionType.read then
        (Except.ok (), { p with read := alistSet p.read shardId (some pool2) })
      else
        (Except.ok (), { p with write := alistSet p.write shardId pool2 })

/-- Embeds `ShardedReplicationPool.destroy` (part_000 lines 172-182): same shape as
`release`, with the same optional-chaining silent no-op when the pool resolves to null. -/
def ShardedReplicationPool.destroy (p : ShardedReplicationPool)
    (owningPools : List (Nat × (ConnectionType × String))) (connection : Nat) :
    Except PoolError Unit × ShardedReplicationPool :=
  match owningPools.lookup connection with
  | none =>
    (Except.error (PoolError.unrecognizedConnection
      "Unable to determine to which sharded pool the connection belongs"), p)
  | some (type, shardId) =>
    match p.getPool shardId type false with
    | none => (Except.ok (), p)
    | some pool =>
      let pool2 := pool.destroyConn connection
      if type == ConnectionType.read then
        (Except.ok (), { p with read := alistSet p.read shardId (some pool2) })
      else
        (Except.ok (), { p with write := alistSet p.write shardId pool2 })

/-- Embeds `ShardedReplicationPool.shardSize` (part_000 lines 226-231).  JS operator
precedence makes `a?.size ?? 0 + (b?.size ?? 0)` parse as `a?.size ?? (0 + (b?.size ?? 0))`:
when the shard has a read pool, its `size` alone is returned and the write pool is ignored;
only when the read pool resolves to null does the expression evaluate to the write pool's
`size`.  The embedding reproduces that parse. -/
def ShardedReplicationPool.shardSize (p : ShardedReplicationPool) (shardId : String) : Nat :=
  match (p.getPool shardId ConnectionType.read false).map Pool.size with
  | some n => n
  | none => 0 + ((p.getPool shardId ConnectionType.write true).map Pool.size).getD 0

/-- Embeds `ShardedReplicationPool.shardAvailable` (part_000 lines 233-238), same parse as
`shardSize`. -/
def ShardedReplicationPool.shardAvailable (p : ShardedReplicationPool)
    (shardId : String) : Nat :=
  match (p.getPool shardId ConnectionType.read false).map Pool.available with
  | some n => n
  | none => 0 + ((p.getPool shardId ConnectionType.write true).map Pool.available).getD 0

/-- Embeds `ShardedReplicationPool.shardUsing` (part_000 lines 240-245), same parse as
`shardSize`. -/
def ShardedReplicationPool.shardUsing (p : ShardedReplicationPool) (shardId : String) : Nat :=
  match (p.getPool shardId ConnectionType.read false).map Pool.usingCount with
  | some n => n
  | none => 0 + ((p.getPool shardId ConnectionType.write true).map Pool.usingCount).getD 0

/-- Embeds `ShardedReplicationPool.shardWaiting` (part_000 lines 247-252), same parse as
`shardSize`. -/
def ShardedReplicationPool.shardWaiting (p : ShardedReplicationPool)
    (shardId : String) : Nat :=
  match (p.getPool shardId ConnectionType.read false).map Pool.waiting with
  | some n => n
  | none => 0 + ((p.getPool shardId ConnectionType.write true).map Pool.waiting).getD 0

/-- Embeds the promise list built by `ShardedReplicationPool.destroyAllNow` and `drain`
(part_000 lines 184-212): one entry per read-map value (`pool?.op()`, which is `undefined` for
an absent read pool and treated by `Promise.all` as already fulfilled), followed by one entry
per write-map value.  Every sub-pool's operation is started eagerly here, before any is
awaited. -/
def ShardedReplicationPool.subPoolPromises (p : ShardedReplicationPool)
    (outcome : Pool → SettledPromise) : List SettledPromise :=
  (p.read.map fun e =>
    match e.2 with
    | some pool => outcome pool
    | none => (0, Except.ok ())) ++
  p.write.map fun e => outcome e.2

/-- Embeds `ShardedReplicationPool.destroyAllNow` (part_000 lines 184-197):
`Promise.all` over the eagerly-built promise list. -/
def ShardedReplicationPool.destroyAllNow (p : ShardedReplicationPool)
    (outcome : Pool → SettledPromise) : SettledPromise :=
  promiseAll (p.subPoolPromises outcome)

/-- Embeds `ShardedReplicationPool.drain` (part_000 lines 199-212): structurally identical to
`destroyAllNow`, awaiting the drain outcomes instead. -/
def ShardedReplicationPool.drain (p : ShardedReplicationPool)
    (outcome : Pool → SettledPromise) : SettledPromise :=
  promiseAll (p.subPoolPromises outcome)

/-- Embeds the captured per-SubPool round-robin counter `let reads = 0` of the read pool's
`create` closure (abstract-dialect/replication-pool.ts line 67). -/
structure ReadRoundRobin where
  reads : Nat

deriving DecidableEq, Repr

/-- Embeds the backend selection of the read `create` closure
(abstract-dialect/replication-pool.ts lines 71-74):
`const nextRead = reads++ % readConfig.length` followed by `connect(readConfig[nextRead])`.
Returns the chosen BackendConfig and the post-increment counter; the `none` branch is
unreachable in the source because the read pool only exists when `readConfig` is non-empty. -/
def roundRobinCreate {α : Type} (readConfig : List α) (st : ReadRoundRobin) :
    Option (α × ReadRoundRobin) :=
  match readConfig.get? (st.reads % readConfig.length) with
  | some cfg => some (cfg, { reads := st.reads + 1 })
  | none => none

/-- Embeds the sequence of backends chosen by `n` successive connection creations of one read
SubPool, threading the counter state through `roundRobinCreate`. -/
def roundRobinRun {α : Type} (readConfig : List α) : Nat → ReadRoundRobin → List α
  | 0, _ => []
  | Nat.succ n, st =>
    match roundRobinCreate readConfig st with
    | some (cfg, st2) => cfg :: roundRobinRun readConfig n st2
    | none => []

/-- Embeds the caller-supplied `ConnectionOptions` (BackendConfig) objects of the sharded
pool: an opaque payload standing for the connection parameters, plus the `shardId` field the
sharded `create` closures write into. -/
structure ConnectionOptions where
  backend : Nat
  shardId : Option String := none

deriving DecidableEq, Repr

/-- Embeds the mutable data shared between the sharded read `create` closure and the caller:
the caller's `readConfig` array of BackendConfig objects and the captured `reads` counter. -/
structure ShardCreateState where
  readConfig : List ConnectionOptions
  reads : Nat

deriving DecidableEq, Repr

/-- Embeds the sharded read `create` closure (part_000 lines 92-102): pick the round-robin
element, write the shard id into ITS `shardId` field in place
(`connectionOptions.shardId = shardId`, a mutation of the object inside the caller-supplied
array, modelled by `List.set`), then pass the mutated object to `connect`.  Returns the
argument handed to `connect` together with the post state of the shared data. -/
def createReadConnection (shardId : String) (st : ShardCreateState) :
    Option (ConnectionOptions × ShardCreateState) :=
  let nextRead := st.reads % st.readConfig.length
  match st.readConfig.get? nextRead with
  | none => none
  | some connectionOptions =>
    let mutated := { connectionOptions with shardId := some shardId }
    some (mutated,
      { readConfig := st.readConfig.set nextRead mutated, reads := st.reads + 1 })

/-- Embeds the sharded write `create` closure (part_000 lines 118-125):
`writeConfig.shardId = shardId` then `connect(writeConfig)`.  Returns the argument handed to
`connect` and the caller's `writeConfig` object as it stands afterwards — the same mutated
object. -/
def createWriteConnection (shardId : String) (writeConfig : ConnectionOptions) :
    ConnectionOptions × ConnectionOptions :=
  let mutated := { writeConfig with shardId := some shardId }
  (mutated, mutated)

/-! Concrete fixtures used by the claim theorems, counterexamples and witnesses. -/

/-- Fixture: a write SubPool holding one idle connection (id 7). -/
def writePoolS1 : Pool := { idle := [7], inUse := [], nextId := 10, max := 5, waitingCount := 0 }

/-- Fixture: the sharded pool state the constructor produces for a single shard `s1` whose
`readConfig` is null — the read map stores null (part_000 lines 84-87) while the write map
stores the shard's write pool. -/
def c1pool : ShardedReplicationPool :=
  { read := [("s1", none)], write := [("s1", writePoolS1)] }

/-- Fixture: a replication pool with both a read and a write SubPool. -/
def c3pool : ReplicationPool :=
  { read := some { idle := [1], inUse := [], nextId := 2, max := 5, waitingCount := 0 },
    write := writePoolS1 }

/-- Fixture for C2: an unreplicated pool whose afterAcquire hook always rejects. -/
def c2pool : ReplicationPool :=
  { read := none,
    write := writePoolS1,
    afterAcquire := some fun _ _ => Except.error "afterAcquire rejected" }

/-- Fixture: the write SubPool state after handing out its idle connection 7. -/
def writePoolS1Post : Pool :=
  { idle := [], inUse := [7], nextId := 10, max := 5, waitingCount := 0 }

/-- Fixture: a SubPool at capacity — no idle connection and `max` already reached. -/
def fullPool : Pool := { idle := [], inUse := [1], nextId := 2, max := 1, waitingCount := 1 }

/-- Fixture for C4: an unreplicated pool with a caller-supplied timeout error class, its
write SubPool exhausted. -/
def c4pool : ReplicationPool :=
  { read := none, write := fullPool,
    timeoutErrorClass := some "ConnectionAcquireTimeoutError" }

/-- Fixture for C4: a sharded pool whose shard s1 write pool is exhausted, with the
`timeoutErrorClass` field set (and, faithful to the source, never consulted). -/
def c4sharded : ShardedReplicationPool :=
  { read := [("s1", none)], write := [("s1", fullPool)],
    timeoutErrorClass := some "ConnectionAcquireTimeoutError" }

deriving instance DecidableEq for Except

/-- Fixture for C6: shard s1 has a read pool with every counter zero, and a write pool with
size 2, available 1, using 1, waiting 2. -/
def c6readPool : Pool := { idle := [], inUse := [], nextId := 0, max := 5, waitingCount := 0 }

/-- Fixture for C6: the write pool of shard s1. -/
def c6writePool : Pool := { idle := [3], inUse := [4], nextId := 5, max := 5, waitingCount := 2 }

/-- Fixture for C6: a sharded pool where shard s1 has both a read and a write pool. -/
def c6pool : ShardedReplicationPool :=
  { read := [("s1", some c6readPool)], write := [("s1", c6writePool)] }

/-- Fixture for C7: a registry recording connection 5 as a read connection of shard ghost. -/
def c7owning : List (Nat × (ConnectionType × String)) :=
  [(5, (ConnectionType.read, "ghost"))]

/-- Fixture for C7: a sharded pool in which shard ghost does not exist. -/
def c7pool : ShardedReplicationPool :=
  { read := [("s1", none)], write := [("s1", writePoolS1)] }

/-- Fixture for C9: an unreplicated pool. -/
def c9pool : ReplicationPool := { read := none, write := writePoolS1 }

/-- Fixture for C8: shard s1's write pool (its destroy outcome rejects fast, see
`c8outcome`). -/
def c8poolA : Pool := { idle := [], inUse := [1], nextId := 2, max := 1, waitingCount := 0 }

/-- Fixture for C8: shard s2's write pool (its destroy outcome fulfils late). -/
def c8poolB : Pool := { idle := [2], inUse := [], nextId := 3, max := 2, waitingCount := 0 }

/-- Fixture for C8: two shards, neither with a read pool. -/
def c8pool : ShardedReplicationPool :=
  { read := [("s1", none), ("s2", none)],
    write := [("s1", c8poolA), ("s2", c8poolB)] }

/-- Fixture for C8: the adapter outcomes — destroying the s1 write pool rejects at time 1,
destroying the s2 write pool fulfils at time 5. -/
def c8outcome (pool : Pool) : SettledPromise :=
  if pool.max = 1 then (1, Except.error "disconnect failed") else (5, Except.ok ())

/-- Fixture for C10: a caller-supplied BackendConfig with no shard id set. -/
def c10cfg : ConnectionOptions := { backend := 11, shardId := none }

/-- Fixture for C10: the shared state of the read create closure before its first call. -/
def c10state : ShardCreateState := { readConfig := [c10cfg], reads := 0 }

/-- Fixture for C10: the shared state after the first call — the caller's config object now
carries the shard id. -/
def c10stateAfter : ShardCreateState :=
  { readConfig := [{ backend := 11, shardId := some "s1" }], reads := 1 }

/-! Theorems: helper lemmas, claim theorems, counterexamples and witnesses. -/

/-- Helper: a successful sub-pool acquisition leaves the handed-out connection checked out
(in the `inUse` accounting) of the returned pool state. -/
theorem Pool.acquireConn_mem_inUse {p : Pool} {c : Nat} {p2 : Pool}
    (h : p.acquireConn = Except.ok (c, p2)) : c ∈ p2.inUse := by
  unfold Pool.acquireConn at h
  cases hi : p.idle with
  | nil =>
    rw [hi] at h
    by_cases hm : p.size < p.max
    · rw [if_pos hm] at h
      simp only [Except.ok.injEq, Prod.mk.injEq] at h
      obtain ⟨h1, h2⟩ := h
      subst h1 h2
      exact List.mem_cons_self _ _
    · rw [if_neg hm] at h
      exact absurd h (by simp)
  | cons a rest =>
    rw [hi] at h
    simp only [Except.ok.injEq, Prod.mk.injEq] at h
    obtain ⟨h1, h2⟩ := h
    subst h1 h2
    exact List.mem_cons_self _ _

/-- Helper: the sequence of backends chosen by `m` creations of a read SubPool whose counter
currently stands at `k` is exactly position `(k + i) mod length` for the i-th creation. -/
theorem roundRobinRun_eq_filterMap {α : Type} (readConfig : List α)
    (h : 0 < readConfig.length) :
    ∀ (m k : Nat), roundRobinRun readConfig m { reads := k }
      = (List.range m).filterMap fun i => readConfig.get? ((k + i) % readConfig.length) := by
  intro m
  induction m with
  | zero => intro k; rfl
  | succ n ih =>
    intro k
    have hk : k % readConfig.length < readConfig.length := Nat.mod_lt _ h
    have hcfg := List.get?_eq_get (l := readConfig) hk
    rw [roundRobinRun]
    unfold roundRobinCreate
    rw [hcfg, List.range_succ_eq_map, List.filterMap_cons, List.filterMap_map]
    simp only [Nat.add_zero, hcfg, Function.comp]
    rw [ih (k + 1)]
    simp only [Function.comp_def]
    congr 1
    refine congrArg (fun f => List.filterMap f (List.range n)) ?_
    funext i
    have hkk : k + 1 + i = k + i.succ := by omega
    rw [hkk]

/-- Helper: among `0, ..., r-1` exactly one number equals `j` when `j < r`. -/
theorem countP_range_beq_eq_one (r j : Nat) (hj : j < r) :
    ((List.range r).countP fun i => i == j) = 1 := by
  induction r with
  | zero => omega
  | succ n ih =>
    rw [List.range_succ, List.countP_append]
    rcases Nat.lt_or_ge j n with hlt | hge
    · rw [ih hlt]
      simp only [List.countP_cons, List.countP_nil]
      have hne : (n == j) = false := by simp; omega
      simp [hne]
    · have hj2 : j = n := by omega
      subst hj2
      have h0 : ((List.range j).countP fun i => i == j) = 0 := by
        rw [List.countP_eq_zero]
        intro a ha
        simp only [List.mem_range] at ha
        simp
        omega
      rw [h0]
      simp

/-- Helper: among `0, ..., r-1` exactly one residue class hit for each `j < r`. -/
theorem countP_range_mod_eq_one (r j : Nat) (hj : j < r) :
    ((List.range r).countP fun i => i % r == j) = 1 := by
  have hcong : ((List.range r).countP fun i => i % r == j)
      = ((List.range r).countP fun i => i == j) := by
    apply List.countP_congr
    intro a ha
    simp only [List.mem_range] at ha
    rw [Nat.mod_eq_of_lt ha]
  rw [hcong]
  exact countP_range_beq_eq_one r j hj

/-- Helper: among the first `r * n` naturals, each residue `j < r` occurs exactly `n` times. -/
theorem countP_range_mul_mod (r j : Nat) (hj : j < r) :
    ∀ n, ((List.range (r * n)).countP fun i => i % r == j) = n := by
  intro n
  induction n with
  | zero => simp
  | succ m ih =>
    rw [Nat.mul_succ, List.range_add, List.countP_append, ih, List.countP_map]
    have h1 : ((List.range r).countP ((fun i => i % r == j) ∘ fun i => r * m + i)) = 1 := by
      have hcong : ((List.range r).countP ((fun i => i % r == j) ∘ fun i => r * m + i))
          = ((List.range r).countP fun i => i % r == j) := by
        apply List.countP_congr
        intro a _
        simp only [Function.comp]
        rw [Nat.mul_add_mod]
      rw [hcong]
      exact countP_range_mod_eq_one r j hj
    omega


/-- C1: the claim states that on a shard configured without read backends, a
`role = read, useMaster falsy` acquire is served by that shard's write SubPool rather than
failing.  The code does the opposite — and contradicts its own constructor comment
("no replication, the write pool will always be used instead"): `getPool` returns the null
read-map entry, so `acquire` throws `No read pool found for shard s1`, even though the write
SubPool exists and a write-role acquire on the same shard succeeds with its idle connection. -/
theorem c1_no_read_pool_read_acquire_throws :
    (c1pool.acquire "s1" ConnectionType.read false).1
      = Except.error (PoolError.noPool ConnectionType.read "s1")
    ∧ (c1pool.acquire "s1" ConnectionType.write false).1
      = Except.ok { id := 7, shardId := some "s1" } := by
  exact ⟨rfl, rfl⟩

/-- C3: the read SubPool is selected iff the requested role is read AND a read SubPool exists
AND useMaster is falsy (the ternary of abstract-dialect/replication-pool.ts line 128); in
every other case — in particular whenever useMaster is true — the write SubPool is selected. -/
theorem c3_read_pool_selection_iff (p : ReplicationPool)
    (options : AcquireConnectionOptions) :
    (p.usesReadPool options = true
      ↔ options.type = ConnectionType.read ∧ p.read.isSome = true
        ∧ options.useMaster = false)
    ∧ (p.usesReadPool options = false → p.selectedSubPool options = p.write) := by
  constructor
  · unfold ReplicationPool.usesReadPool
    simp only [Bool.and_eq_true, beq_iff_eq, Bool.not_eq_true']
    tauto
  · intro h
    simp [ReplicationPool.selectedSubPool, h]

/-- Witness for C3: at a pool that has a read SubPool, a plain read acquire selects the read
pool, while `useMaster := true` forces the write pool. -/
theorem c3_read_pool_selection_iff_witness :
    c3pool.usesReadPool { type := ConnectionType.read } = true
    ∧ c3pool.selectedSubPool { type := ConnectionType.read, useMaster := true }
        = c3pool.write := by
  constructor
  · exact (c3_read_pool_selection_iff c3pool _).1.mpr ⟨rfl, rfl, rfl⟩
  · exact (c3_read_pool_selection_iff c3pool _).2 rfl

/-- C5: with a non-empty list of read BackendConfigs of length `r`, the sequence of the first
`r * n` connection creations of one read SubPool (counter starting at 0 and never reset) picks
position `i mod r` for the i-th creation, and consequently each backend position `j < r` is
used exactly `n` times, in original order, repeating. -/
theorem c5_round_robin_distribution {α : Type} (cfgs : List α) (r n j : Nat)
    (hr : cfgs.length = r) (h0 : 0 < r) (hj : j < r) :
    roundRobinRun cfgs (r * n) { reads := 0 }
      = ((List.range (r * n)).filterMap fun i => cfgs.get? (i % r))
    ∧ ((List.range (r * n)).countP fun i => i % r == j) = n := by
  subst hr
  constructor
  · have h := roundRobinRun_eq_filterMap cfgs h0 (cfgs.length * n) 0
    simpa using h
  · exact countP_range_mul_mod _ j hj n

/-- Witness for C5: two read backends, six creations — backends alternate in order and the
first backend is used exactly three times. -/
theorem c5_round_robin_distribution_witness :
    ((["a", "b"] : List String).length = 2 ∧ 0 < 2 ∧ 0 < 2)
    ∧ (roundRobinRun ["a", "b"] (2 * 3) { reads := 0 }
        = ((List.range (2 * 3)).filterMap fun i => (["a", "b"] : List String).get? (i % 2))
      ∧ ((List.range (2 * 3)).countP fun i => i % 2 == 0) = 3) := by
  exact ⟨⟨rfl, by decide, by decide⟩,
    c5_round_robin_distribution ["a", "b"] 2 3 0 rfl (by decide) (by decide)⟩

/-- C2 counterexample: with an afterAcquire hook that throws, the acquisition fails, but the
connection (id 7) obtained from the write SubPool is NOT released back to it before the
failure is reported: afterwards the SubPool still has it checked out (`using` is 1) and not
available (`available` is 0), refuting the claim that no connection remains checked out. -/
theorem c2_counterexample_connection_stays_checked_out :
    (c2pool.acquire {}).1 = Except.error (PoolError.hookError "afterAcquire rejected")
    ∧ (c2pool.acquire {}).2.write.usingCount = 1
    ∧ (c2pool.acquire {}).2.write.available = 0 := ⟨rfl, rfl, rfl⟩

/-- C2 amended: for every acquire call on ReplicationPool where the afterAcquire hook throws,
the acquisition fails (the error propagates), but the connection obtained from the SubPool is
NOT released back: it remains checked out (in `inUse`) of the selected SubPool in the
resulting pool state. -/
theorem c2_after_acquire_failure_leaves_connection_checked_out
    (p : ReplicationPool) (options : AcquireConnectionOptions)
    (hook : Nat → AcquireConnectionOptions → Except String Unit)
    (c : Nat) (pool2 : Pool) (e : String)
    (hb : p.beforeAcquire = none)
    (ha : p.afterAcquire = some hook)
    (hacq : (p.selectedSubPool options).acquireConn = Except.ok (c, pool2))
    (hhook : hook c options = Except.error e) :
    (p.acquire options).1 = Except.error (PoolError.hookError e)
    ∧ (p.acquire options).2.selectedSubPool options = pool2
    ∧ c ∈ ((p.acquire options).2.selectedSubPool options).inUse := by
  have hpost : p.acquire options
      = (Except.error (PoolError.hookError e),
         if p.usesReadPool options then { p with read := some pool2 }
         else { p with write := pool2 }) := by
    unfold ReplicationPool.acquire
    rw [hb]
    unfold ReplicationPool.acquireCore
    rw [hacq, ha]
    simp only [hhook, hb]
  have hsel : ((if p.usesReadPool options then { p with read := some pool2 }
      else { p with write := pool2 } : ReplicationPool)).selectedSubPool options = pool2 := by
    by_cases h : p.usesReadPool options
    · rw [if_pos h]
      have h2 : ReplicationPool.usesReadPool { p with read := some pool2 } options = true := by
        unfold ReplicationPool.usesReadPool at h ⊢
        simp only [Bool.and_eq_true] at h
        simp [h.1.2, h.2]
      simp [ReplicationPool.selectedSubPool, h2]
    · rw [if_neg h]
      have h2 : ReplicationPool.usesReadPool { p with write := pool2 } options
          = ReplicationPool.usesReadPool p options := by
        unfold ReplicationPool.usesReadPool
        rfl
      simp [ReplicationPool.selectedSubPool, h2, h]
  refine ⟨by rw [hpost], ?_, ?_⟩
  · rw [hpost]
    exact hsel
  · rw [hpost]
    rw [hsel]
    exact Pool.acquireConn_mem_inUse hacq

/-- Witness for C2's amended theorem: the concrete failing-hook pool; the failed acquire
leaves connection 7 in the write SubPool's checked-out set. -/
theorem c2_after_acquire_failure_leaves_connection_checked_out_witness :
    (c2pool.acquire {}).1 = Except.error (PoolError.hookError "afterAcquire rejected")
    ∧ (c2pool.acquire {}).2.selectedSubPool {} = writePoolS1Post
    ∧ 7 ∈ ((c2pool.acquire {}).2.selectedSubPool {}).inUse :=
  c2_after_acquire_failure_leaves_connection_checked_out c2pool {}
    (fun _ _ => Except.error "afterAcquire rejected") 7 writePoolS1Post
    "afterAcquire rejected" rfl rfl rfl rfl

/-- C4 counterexample: the sharded pool, although configured with a `timeoutErrorClass`,
rejects an exhausted-pool acquire with the RAW timeout error and not with the wrapped class,
refuting the claim that the wrapping contract "holds for the sharded pool as well". -/
theorem c4_counterexample_sharded_timeout_not_wrapped :
    c4sharded.timeoutErrorClass = some "ConnectionAcquireTimeoutError"
    ∧ (c4sharded.acquire "s1" ConnectionType.write false).1
        = Except.error (PoolError.timeout "ResourceRequest timed out")
    ∧ (c4sharded.acquire "s1" ConnectionType.write false).1
        ≠ Except.error (PoolError.wrappedTimeout "ConnectionAcquireTimeoutError"
            "ResourceRequest timed out") := by
  refine ⟨rfl, rfl, ?_⟩
  intro h
  rw [show (c4sharded.acquire "s1" ConnectionType.write false).1
      = Except.error (PoolError.timeout "ResourceRequest timed out") from rfl] at h
  simp at h

/-- C4 amended: for ReplicationPool the claim holds — with a `timeoutErrorClass` supplied, a
sub-pool acquisition timeout is re-thrown as an instance of that class carrying the original
timeout as its cause (lines 130-139).  For ShardedReplicationPool it does not hold: its
`acquire` performs no re-wrapping, so the raw timeout error propagates regardless of the
`timeoutErrorClass` field. -/
theorem c4_timeout_wrapping_unsharded_only
    (p : ReplicationPool) (options : AcquireConnectionOptions) (cls msg : String)
    (sp : ShardedReplicationPool) (shardId : String) (type : ConnectionType)
    (useMaster : Bool) (pool : Pool) (msg2 : String)
    (hb : p.beforeAcquire = none)
    (hcls : p.timeoutErrorClass = some cls)
    (ht : (p.selectedSubPool options).acquireConn = Except.error (PoolError.timeout msg))
    (hg : sp.getPool shardId type useMaster = some pool)
    (ht2 : pool.acquireConn = Except.error (PoolError.timeout msg2)) :
    (p.acquire options).1 = Except.error (PoolError.wrappedTimeout cls msg)
    ∧ (sp.acquire shardId type useMaster).1 = Except.error (PoolError.timeout msg2) := by
  constructor
  · have hrun : p.acquire options = (Except.error (PoolError.wrappedTimeout cls msg), p) := by
      unfold ReplicationPool.acquire ReplicationPool.acquireCore
      rw [hb, ht, hcls]
    rw [hrun]
  · have hrun : sp.acquire shardId type useMaster
        = (Except.error (PoolError.timeout msg2), sp) := by
      unfold ShardedReplicationPool.acquire
      rw [hg]
      simp only [ht2]
    rw [hrun]

/-- Witness for C4's amended theorem: the unsharded pool wraps the exhausted-pool timeout,
the sharded pool surfaces it raw. -/
theorem c4_timeout_wrapping_unsharded_only_witness :
    (c4pool.acquire {}).1
      = Except.error (PoolError.wrappedTimeout "ConnectionAcquireTimeoutError"
          "ResourceRequest timed out")
    ∧ (c4sharded.acquire "s1" ConnectionType.write false).1
      = Except.error (PoolError.timeout "ResourceRequest timed out") :=
  c4_timeout_wrapping_unsharded_only c4pool {} "ConnectionAcquireTimeoutError"
    "ResourceRequest timed out" c4sharded "s1" ConnectionType.write false fullPool
    "ResourceRequest timed out" rfl rfl rfl rfl rfl

/-- Helper: reading back the position just written by `List.set`. -/
theorem get?_set_self {α : Type} (l : List α) (i : Nat) (a : α) (h : i < l.length) :
    (l.set i a).get? i = some a := by
  simp [List.get?_eq_getElem?, List.getElem?_set_self, h]

/-- C6: the claim says each per-shard accessor returns the sum of the read SubPool's counter
(0 when absent) and the write SubPool's counter.  Because `a?.x ?? 0 + (b?.x ?? 0)` parses as
`a?.x ?? (0 + (b?.x ?? 0))`, each accessor returns only the read pool's counter whenever a
read pool exists: at this state the write pool has size 2, available 1, using 1 and waiting 2,
yet every per-shard accessor returns the read pool's 0 instead of the claimed sum. -/
theorem c6_shard_accessors_ignore_write_pool :
    c6pool.shardSize "s1" = 0
    ∧ c6pool.shardAvailable "s1" = 0
    ∧ c6pool.shardUsing "s1" = 0
    ∧ c6pool.shardWaiting "s1" = 0
    ∧ c6readPool.size + c6writePool.size = 2
    ∧ c6readPool.available + c6writePool.available = 1
    ∧ c6readPool.usingCount + c6writePool.usingCount = 1
    ∧ c6readPool.waiting + c6writePool.waiting = 2 :=
  ⟨rfl, rfl, rfl, rfl, rfl, rfl, rfl, rfl⟩

/-- C7 counterexample: connection 5 is recorded for shard ghost, which is absent from the
shard maps; `release` and `destroy` complete successfully with the state unchanged — a silent
no-op from the optional chaining — instead of failing as the claim states. -/
theorem c7_counterexample_missing_shard_release_is_silent :
    (c7pool.release c7owning 5).1 = Except.ok ()
    ∧ (c7pool.release c7owning 5).2 = c7pool
    ∧ (c7pool.destroy c7owning 5).1 = Except.ok ()
    ∧ (c7pool.destroy c7owning 5).2 = c7pool := ⟨rfl, rfl, rfl, rfl⟩

/-- C7 amended: release and destroy do fail with the unrecognized-connection error when the
connection was never recorded; but when the recorded (role, shardId) pair resolves to no pool
(the shard is gone from the map), the optional chaining makes both complete silently as
no-ops with the state unchanged, rather than failing. -/
theorem c7_release_destroy_missing_shard_behaviour
    (p : ShardedReplicationPool) (owningPools : List (Nat × (ConnectionType × String)))
    (connection : Nat) :
    (owningPools.lookup connection = none →
      (p.release owningPools connection).1
        = Except.error (PoolError.unrecognizedConnection
            "Unable to determine to which sharded pool the connection belongs")
      ∧ (p.destroy owningPools connection).1
        = Except.error (PoolError.unrecognizedConnection
            "Unable to determine to which sharded pool the connection belongs"))
    ∧ (∀ type shardId, owningPools.lookup connection = some (type, shardId) →
        p.getPool shardId type false = none →
        p.release owningPools connection = (Except.ok (), p)
        ∧ p.destroy owningPools connection = (Except.ok (), p)) := by
  constructor
  · intro h
    constructor
    · unfold ShardedReplicationPool.release
      rw [h]
    · unfold ShardedReplicationPool.destroy
      rw [h]
  · intro type shardId h hg
    constructor
    · unfold ShardedReplicationPool.release
      rw [h]
      simp only [hg]
    · unfold ShardedReplicationPool.destroy
      rw [h]
      simp only [hg]

/-- Witness for C7's amended theorem: the unrecorded connection 9 fails with the error, the
ghost-shard connection 5 silently no-ops. -/
theorem c7_release_destroy_missing_shard_behaviour_witness :
    ((c7pool.release c7owning 9).1
        = Except.error (PoolError.unrecognizedConnection
            "Unable to determine to which sharded pool the connection belongs")
      ∧ (c7pool.destroy c7owning 9).1
        = Except.error (PoolError.unrecognizedConnection
            "Unable to determine to which sharded pool the connection belongs"))
    ∧ (c7pool.release c7owning 5 = (Except.ok (), c7pool)
      ∧ c7pool.destroy c7owning 5 = (Except.ok (), c7pool)) := by
  constructor
  · exact (c7_release_destroy_missing_shard_behaviour c7pool c7owning 9).1 rfl
  · exact (c7_release_destroy_missing_shard_behaviour c7pool c7owning 5).2
      ConnectionType.read "ghost" rfl rfl

/-- C9: release and destroy called with a connection that was never recorded in the ownership
registry reject with the unrecognized-connection error and return the pool state unchanged,
so no SubPool counter (size, available, using, waiting) changes. -/
theorem c9_unrecognized_connection_rejects_and_preserves_state
    (p : ReplicationPool) (owningPools : List (Nat × ConnectionType)) (connection : Nat)
    (h : owningPools.lookup connection = none) :
    (p.release owningPools connection).1
      = Except.error (PoolError.unrecognizedConnection
          "Unable to determine to which pool the connection belongs")
    ∧ (p.release owningPools connection).2 = p
    ∧ (p.destroy owningPools connection).1
      = Except.error (PoolError.unrecognizedConnection
          "Unable to determine to which pool the connection belongs")
    ∧ (p.destroy owningPools connection).2 = p := by
  unfold ReplicationPool.release ReplicationPool.destroy
  rw [h]
  exact ⟨rfl, rfl, rfl, rfl⟩

/-- Witness for C9: releasing or destroying the foreign handle 42 against an empty registry
rejects and leaves the pool untouched. -/
theorem c9_unrecognized_connection_rejects_and_preserves_state_witness :
    (c9pool.release [] 42).1
      = Except.error (PoolError.unrecognizedConnection
          "Unable to determine to which pool the connection belongs")
    ∧ (c9pool.release [] 42).2 = c9pool
    ∧ (c9pool.destroy [] 42).1
      = Except.error (PoolError.unrecognizedConnection
          "Unable to determine to which pool the connection belongs")
    ∧ (c9pool.destroy [] 42).2 = c9pool :=
  c9_unrecognized_connection_rejects_and_preserves_state c9pool [] 42 rfl

/-- Helper: `Promise.all` has no rejection to surface exactly when every promise fulfils. -/
theorem earliestRejection_eq_none_iff (ps : List SettledPromise) :
    earliestRejection ps = none ↔ ∀ q ∈ ps, q.2 = Except.ok () := by
  induction ps with
  | nil => simp [earliestRejection]
  | cons q rest ih =>
    obtain ⟨t, r⟩ := q
    cases r with
    | error e =>
      simp only [earliestRejection]
      constructor
      · intro h
        exfalso
        cases hr : earliestRejection rest with
        | none => rw [hr] at h; exact absurd h (by simp)
        | some v =>
          rw [hr] at h
          obtain ⟨t2, e2⟩ := v
          by_cases hlt : t2 < t <;> simp [hlt] at h
      · intro h
        have h2 := h (t, Except.error e) (List.mem_cons_self _ _)
        simp at h2
    | ok u =>
      cases u
      simp only [earliestRejection]
      rw [ih]
      constructor
      · intro h q hq
        rcases List.mem_cons.mp hq with hq1 | hq2
        · subst hq1; rfl
        · exact h q hq2
      · intro h q hq
        exact h q (List.mem_cons_of_mem _ hq)

/-- C8 counterexample: with the s1 destroy rejecting at time 1 and the s2 destroy settling at
time 5, `destroyAllNow` surfaces the rejection at time 1, strictly before all sub-operations
have settled (the latest settle time is 5) — refuting the claim that the rejection is
surfaced to the caller only after all sub-operations have settled. -/
theorem c8_counterexample_rejection_surfaces_before_all_settle :
    c8pool.destroyAllNow c8outcome = (1, Except.error "disconnect failed")
    ∧ maxSettleTime (c8pool.subPoolPromises c8outcome) = 5
    ∧ (1 : Nat) < 5 := ⟨rfl, rfl, by decide⟩

/-- C8 amended: `drain`/`destroyAllNow` build the full promise list eagerly — every write
SubPool and every present read SubPool of every shard contributes its sub-operation, so one
failure never prevents the others from being attempted — and the aggregate result is a
rejection iff some sub-operation rejected.  Contra the original claim, however, `Promise.all`
surfaces the first rejection at its own settle time, possibly before the other sub-operations
have settled. -/
theorem c8_destroy_all_attempts_every_subpool
    (p : ShardedReplicationPool) (outcome : Pool → SettledPromise) :
    (∀ shardId pool, (shardId, pool) ∈ p.write → outcome pool ∈ p.subPoolPromises outcome)
    ∧ (∀ shardId pool, (shardId, some pool) ∈ p.read →
        outcome pool ∈ p.subPoolPromises outcome)
    ∧ ((p.destroyAllNow outcome).2 = Except.ok ()
        ↔ ∀ q ∈ p.subPoolPromises outcome, q.2 = Except.ok ())
    ∧ p.drain outcome = p.destroyAllNow outcome := by
  refine ⟨?_, ?_, ?_, rfl⟩
  · intro shardId pool hmem
    unfold ShardedReplicationPool.subPoolPromises
    apply List.mem_append_right
    exact List.mem_map_of_mem _ hmem
  · intro shardId pool hmem
    unfold ShardedReplicationPool.subPoolPromises
    apply List.mem_append_left
    exact List.mem_map_of_mem _ hmem
  · have hd : p.destroyAllNow outcome = promiseAll (p.subPoolPromises outcome) := rfl
    rw [hd]
    unfold promiseAll
    cases hr : earliestRejection (p.subPoolPromises outcome) with
    | none =>
      exact ⟨fun _ => (earliestRejection_eq_none_iff _).mp hr, fun _ => rfl⟩
    | some v =>
      obtain ⟨t, e⟩ := v
      constructor
      · intro h
        exact absurd h (by simp)
      · intro h
        exfalso
        have hnone := (earliestRejection_eq_none_iff (p.subPoolPromises outcome)).mpr h
        rw [hr] at hnone
        exact absurd hnone (by simp)

/-- Witness for C8's amended theorem: both write pools' outcomes are in the awaited set, and
since the s1 outcome rejects, destroyAllNow reports a rejection. -/
theorem c8_destroy_all_attempts_every_subpool_witness :
    c8outcome c8poolA ∈ c8pool.subPoolPromises c8outcome
    ∧ c8outcome c8poolB ∈ c8pool.subPoolPromises c8outcome
    ∧ (c8pool.destroyAllNow c8outcome).2 ≠ Except.ok () := by
  refine ⟨(c8_destroy_all_attempts_every_subpool c8pool c8outcome).1 "s1" c8poolA (by decide),
    (c8_destroy_all_attempts_every_subpool c8pool c8outcome).1 "s2" c8poolB (by decide),
    fun h => ?_⟩
  have hall := ((c8_destroy_all_attempts_every_subpool c8pool c8outcome).2.2.1).mp h
  have hq := hall (1, Except.error "disconnect failed") (by decide)
  simp at hq

/-- C10: the sharded create closures mutate the caller-supplied BackendConfig objects in
place: the read closure writes the shard id into the selected readConfig element before
calling connect (the connect argument carries it, and the caller's array afterwards holds the
mutated object at that position), and the write closure does the same to writeConfig; a
config whose shardId differed beforehand is observably changed by the call. -/
theorem c10_create_mutates_caller_configs
    (shardId : String) (st st2 : ShardCreateState) (cfg oldCfg : ConnectionOptions)
    (wc : ConnectionOptions)
    (h : createReadConnection shardId st = some (cfg, st2))
    (hold : st.readConfig.get? (st.reads % st.readConfig.length) = some oldCfg) :
    cfg.shardId = some shardId
    ∧ st2.readConfig.get? (st.reads % st.readConfig.length)
        = some { oldCfg with shardId := some shardId }
    ∧ (oldCfg.shardId ≠ some shardId → st2.readConfig ≠ st.readConfig)
    ∧ (createWriteConnection shardId wc).1.shardId = some shardId
    ∧ (createWriteConnection shardId wc).2.shardId = some shardId := by
  unfold createReadConnection at h
  dsimp only at h
  rw [hold] at h
  simp only [Option.some.injEq, Prod.mk.injEq] at h
  obtain ⟨h1, h2⟩ := h
  subst h1
  subst h2
  have hlen : st.reads % st.readConfig.length < st.readConfig.length := by
    rcases List.get?_eq_some.mp hold with ⟨hlt, _⟩
    exact hlt
  refine ⟨rfl, ?_, ?_, rfl, rfl⟩
  · show (st.readConfig.set (st.reads % st.readConfig.length)
        { oldCfg with shardId := some shardId }).get? (st.reads % st.readConfig.length)
      = some { oldCfg with shardId := some shardId }
    exact get?_set_self _ _ _ hlen
  · intro hne heq
    have hset : (st.readConfig.set (st.reads % st.readConfig.length)
        { oldCfg with shardId := some shardId }) = st.readConfig := heq
    have hget := get?_set_self st.readConfig (st.reads % st.readConfig.length)
        { oldCfg with shardId := some shardId } hlen
    rw [hset, hold] at hget
    simp only [Option.some.injEq] at hget
    have hs := congrArg ConnectionOptions.shardId hget
    exact hne hs

/-- Witness for C10: the first creation for shard s1 over a single-element readConfig mutates
the caller's config in place, and the write closure stamps writeConfig likewise. -/
theorem c10_create_mutates_caller_configs_witness :
    ({ backend := 11, shardId := some "s1" } : ConnectionOptions).shardId = some "s1"
    ∧ c10stateAfter.readConfig.get? (c10state.reads % c10state.readConfig.length)
        = some { c10cfg with shardId := some "s1" }
    ∧ (c10cfg.shardId ≠ some "s1" → c10stateAfter.readConfig ≠ c10state.readConfig)
    ∧ (createWriteConnection "s1" c10cfg).1.shardId = some "s1"
    ∧ (createWriteConnection "s1" c10cfg).2.shardId = some "s1" :=
  c10_create_mutates_caller_configs "s1" c10state c10stateAfter
    { backend := 11, shardId := some "s1" } c10cfg c10cfg rfl rfl
